import Mathlib

/-!
Verification of the analysis/recommendation engine of the Sri Lankan
Agriculture AI server (`sri_lanka_ai_server.py`).

Modelling conventions:
* Python floats are modelled as exact rationals (`ℚ`); the engine's
  arithmetic is closed-form formulas on small decimal constants.
* Python dicts with string keys are modelled as ordered association lists
  (`List (String × α)`); `dict.get` is an exact first-match lookup and the
  case-insensitive fallback loops are first-match searches over the list.
* Functions returning heterogeneous status dicts are modelled as inductive
  result types, one constructor per distinct shape the source can return.
-/

/-- Python `s.lower()` (ASCII case mapping, as used by the source's keys). -/
def pyLower (s : String) : String := ⟨s.data.map Char.toLower⟩

/-- Python `s.strip()`: drop leading and trailing whitespace. -/
def pyStrip (s : String) : String :=
  ⟨((s.data.dropWhile Char.isWhitespace).reverse.dropWhile Char.isWhitespace).reverse⟩

/-- Python list truthiness helper: first-match lookup, `d.get(k)`. -/
def dictGet {α : Type} (d : List (String × α)) (k : String) : Option α :=
  (d.find? (fun p => p.1 == k)).map (fun p => p.2)

/-- The case-insensitive fallback loop used by several lookups:
first entry whose key lowercases to the probe's lowercase, together with
its canonical-case key. -/
def ciFind {α : Type} (d : List (String × α)) (k : String) : Option (String × α) :=
  d.find? (fun p => pyLower p.1 == pyLower k)

/-- Does the character list `hay` start with `needle`? -/
def startsWithChars : List Char → List Char → Bool
  | [], _ => true
  | _ :: _, [] => false
  | a :: xs, b :: ys => a == b && startsWithChars xs ys

/-- Python's `needle in hay` substring test, on character lists. -/
def containsSubChars (needle : List Char) : List Char → Bool
  | [] => needle.isEmpty
  | c :: rest => startsWithChars needle (c :: rest) || containsSubChars needle rest

/-- Python's `needle in hay` substring test on strings. -/
def strContainsSub (hay needle : String) : Bool :=
  containsSubChars needle.data hay.data

/-- Arithmetic mean of a rational list (`np.mean`); 0 on the empty list
(the source only applies it to nonempty lists). -/
def listMean (l : List ℚ) : ℚ := l.sum / l.length

/-- `np.min` guarded by the source's nonemptiness check; 0 for empty. -/
def listMinD : List ℚ → ℚ
  | [] => 0
  | x :: xs => xs.foldl min x

/-- `np.max` guarded by the source's nonemptiness check; 0 for empty. -/
def listMaxD : List ℚ → ℚ
  | [] => 0
  | x :: xs => xs.foldl max x

/-- Round-half-to-even on rationals, the rounding mode of Python `round`. -/
def roundHalfEven (q : ℚ) : ℤ :=
  let f := ⌊q⌋
  let r := q - f
  if r < 1/2 then f
  else if 1/2 < r then f + 1
  else if f % 2 = 0 then f else f + 1

/-- Python `round(x, n)` modelled on exact rationals. -/
def pyRound (n : ℕ) (x : ℚ) : ℚ :=
  (roundHalfEven (x * 10 ^ n) : ℚ) / 10 ^ n

/-- One climate-zone record of the Reference Data Store
(`sri_lanka_data.climate_zones` values). -/
structure ClimateZone where
  rainfall_mm : List ℚ
  temperature_range : ℚ × ℚ
  humidity_range : ℚ × ℚ
  optimal_crops : List String
deriving DecidableEq

/-- `sri_lanka_data['climate_zones']`, an insertion-ordered dict. -/
def climate_zones : List (String × ClimateZone) :=
  [("Wet Zone",
    { rainfall_mm := [200, 300, 400, 350, 180, 120, 100, 120, 200, 350, 400, 250]
      temperature_range := (24, 30)
      humidity_range := (75, 85)
      optimal_crops := ["Rice", "Tea", "Rubber", "Coconut", "Vegetables"] }),
   ("Dry Zone",
    { rainfall_mm := [50, 80, 120, 150, 80, 40, 30, 50, 120, 200, 180, 100]
      temperature_range := (26, 35)
      humidity_range := (60, 75)
      optimal_crops := ["Rice", "Maize", "Sesame", "Cotton", "Chili"] }),
   ("Intermediate Zone",
    { rainfall_mm := [120, 180, 250, 220, 140, 80, 60, 80, 160, 280, 300, 180]
      temperature_range := (22, 28)
      humidity_range := (70, 80)
      optimal_crops := ["Rice", "Vegetables", "Fruits", "Spices", "Tea"] })]

/-- One crop-variety record of `sri_lanka_data['crop_varieties']`.
Missing dict keys are `none`. -/
structure CropVariety where
  yield_per_acre : Option ℚ := none
  growth_days : Option ℕ := none
  growth_years : Option ℕ := none
  water_requirement : Option String := none
  elevation : Option String := none
  nuts_per_tree : Option ℕ := none
  lifespan : Option ℕ := none
deriving DecidableEq

/-- The `'Rice'` entry of `sri_lanka_data['crop_varieties']`. -/
def rice_varieties : List (String × CropVariety) :=
  [("BG 352", { yield_per_acre := some (9/2), growth_days := some 105,
                water_requirement := some "High" }),
   ("AT 362", { yield_per_acre := some (21/5), growth_days := some 110,
                water_requirement := some "Medium" }),
   ("BG 300", { yield_per_acre := some 4, growth_days := some 95,
                water_requirement := some "High" }),
   ("H-4", { yield_per_acre := some (19/5), growth_days := some 120,
             water_requirement := some "Medium" })]

/-- The `'Tea'` entry of `sri_lanka_data['crop_varieties']`. -/
def tea_varieties : List (String × CropVariety) :=
  [("TRI 2025", { yield_per_acre := some 1500, growth_years := some 3,
                  elevation := some "High" }),
   ("TRI 2043", { yield_per_acre := some 1400, growth_years := some 3,
                  elevation := some "Medium" }),
   ("TRI 3055", { yield_per_acre := some 1600, growth_years := some 4,
                  elevation := some "High" })]

/-- The `'Coconut'` entry of `sri_lanka_data['crop_varieties']`: its
variety records carry `nuts_per_tree` but no `yield_per_acre`. -/
def coconut_varieties : List (String × CropVariety) :=
  [("Dwarf", { nuts_per_tree := some 180, growth_years := some 5,
               lifespan := some 80 }),
   ("Tall", { nuts_per_tree := some 120, growth_years := some 8,
              lifespan := some 100 })]

/-- `sri_lanka_data['crop_varieties']`: crop → ordered dict of varieties. -/
def crop_varieties : List (String × List (String × CropVariety)) :=
  [("Rice", rice_varieties), ("Tea", tea_varieties), ("Coconut", coconut_varieties)]

/-- The value held by `farm_config['fieldSize']`: the client may send a
string or a number. -/
inductive FieldVal where
  | str (s : String)
  | num (q : ℚ)
deriving DecidableEq

/-- `farm_config` as consumed by the engine; absent keys default to the
same values `dict.get` supplies in the source. -/
structure FarmConfig where
  location : String := ""
  climateZone : String := ""
  cropType : String := ""
  seedVariety : String := ""
  plantingDate : String := ""
  fieldSize : FieldVal := .str "0"
deriving DecidableEq

/-- Digits-only string to value: `none` unless nonempty and all ASCII digits. -/
def digitsVal : List Char → Option ℕ
  | [] => none
  | cs =>
    if cs.all Char.isDigit then
      some (cs.foldl (fun acc c => acc * 10 + (c.toNat - 48)) 0)
    else none

/-- Fraction digits to an exact rational in [0,1). -/
def fracVal : List Char → ℚ
  | [] => 0
  | c :: cs => (((c.toNat - 48 : ℕ) : ℚ) + fracVal cs) / 10

/-- Split off an optional sign character. -/
def splitSign : List Char → (Bool × List Char)
  | '-' :: cs => (true, cs)
  | '+' :: cs => (false, cs)
  | cs => (false, cs)

/-- Parse an unsigned decimal mantissa `digits [. digits]` or `. digits`. -/
def parseMantissa (cs : List Char) : Option ℚ :=
  match cs.splitOn '.' with
  | [whole] => (digitsVal whole).map (fun n => (n : ℚ))
  | [whole, frac] =>
    if whole.isEmpty then
      if frac.isEmpty then none
      else if frac.all Char.isDigit then some (fracVal frac) else none
    else
      match digitsVal whole with
      | none => none
      | some n =>
        if frac.all Char.isDigit then some ((n : ℚ) + fracVal frac) else none
  | _ => none

/-- Python `float(s)` on decimal literals: optional surrounding whitespace,
optional sign, decimal mantissa, optional exponent part.  (The special
tokens `inf`/`nan` and digit underscores are not sent by the client and
are not modelled.)  `none` models `ValueError`. -/
def pyFloatOfString (s : String) : Option ℚ :=
  let cs := (pyStrip s).data
  let (neg, cs) := splitSign cs
  let applySign : ℚ → ℚ := fun q => if neg then -q else q
  match cs.splitOn 'e' with
  | [mant] =>
    (match mant.splitOn 'E' with
     | [m] => (parseMantissa m).map applySign
     | [m, ex] =>
       match parseMantissa m, splitSign ex with
       | some q, (eneg, eds) =>
         (digitsVal eds).map (fun n =>
           applySign (if eneg then q / 10 ^ n else q * 10 ^ n))
       | none, _ => none
     | _ => none)
  | [mant, ex] =>
    match parseMantissa mant, splitSign ex with
    | some q, (eneg, eds) =>
      (digitsVal eds).map (fun n =>
        applySign (if eneg then q / 10 ^ n else q * 10 ^ n))
    | none, _ => none
  | _ => none

/-- Python falsiness of the raw `fieldSize` value (`'' or 0` are falsy). -/
def FieldVal.isFalsy : FieldVal → Bool
  | .str s => s == ""
  | .num q => q == 0

/-- Lines 323–328 of `_predict_yield`:
`field_size = float(field_size_str or 0)` with `except → 0`. -/
def parse_field_size (v : FieldVal) : ℚ :=
  if v.isFalsy then 0
  else
    match v with
    | .num q => q
    | .str s => (pyFloatOfString s).getD 0

/-- One raw sensor sample; missing readings are `none`. -/
structure SensorSample where
  temperature : Option ℚ := none
  humidity : Option ℚ := none
  soil_moisture : Option ℚ := none
  timestamp : ℤ := 0
deriving DecidableEq

/-- Output of `_analyze_sensor_data`: either the bare
`status: No sensor data available` dict or the stats dict. -/
inductive SensorAnalysis where
  | noData
  | stats (average_temperature average_humidity average_soil_moisture : ℚ)
      (temperature_range : ℚ × ℚ) (data_points : ℕ) (last_reading : ℤ)
deriving DecidableEq

/-- The `status` key of the aggregate, when present. -/
def SensorAnalysis.statusOf : SensorAnalysis → Option String
  | .noData => some "No sensor data available"
  | .stats _ _ _ _ _ _ => none

/-- `sensor_analysis.get('average_temperature', d)`. -/
def SensorAnalysis.getAvgTemp : SensorAnalysis → ℚ → ℚ
  | .noData, d => d
  | .stats t _ _ _ _ _, _ => t

/-- `sensor_analysis.get('average_humidity', d)`. -/
def SensorAnalysis.getAvgHumidity : SensorAnalysis → ℚ → ℚ
  | .noData, d => d
  | .stats _ h _ _ _ _, _ => h

/-- `sensor_analysis.get('average_soil_moisture', d)`. -/
def SensorAnalysis.getAvgSoilMoisture : SensorAnalysis → ℚ → ℚ
  | .noData, d => d
  | .stats _ _ m _ _ _, _ => m

/-- `sensor_analysis.get('data_points', d)`. -/
def SensorAnalysis.getDataPoints : SensorAnalysis → ℕ → ℕ
  | .noData, d => d
  | .stats _ _ _ _ n _, _ => n

/-- `_analyze_sensor_data`: reduce raw samples to mean/min/max summaries;
empty input short-circuits to the no-data status. -/
def analyze_sensor_data (sensor_data : List SensorSample) : SensorAnalysis :=
  match sensor_data with
  | [] => .noData
  | _ =>
    let temperatures := sensor_data.filterMap (fun d => d.temperature)
    let humidity := sensor_data.filterMap (fun d => d.humidity)
    let soil_moisture := sensor_data.filterMap (fun d => d.soil_moisture)
    .stats
      (if temperatures.isEmpty then 0 else listMean temperatures)
      (if humidity.isEmpty then 0 else listMean humidity)
      (if soil_moisture.isEmpty then 0 else listMean soil_moisture)
      (if temperatures.isEmpty then (0, 0)
       else (listMinD temperatures, listMaxD temperatures))
      sensor_data.length
      (match sensor_data.map (fun d => d.timestamp) with
       | [] => 0
       | t :: ts => ts.foldl max t)

/-- `_calculate_climate_factor`: exact-key zone lookup (no strip, no
case-insensitive fallback) and exact membership of the raw crop string in
the zone's optimal-crop list. -/
def calculate_climate_factor (farm_config : FarmConfig) : ℚ :=
  let climate_zone := farm_config.climateZone
  let crop_type := farm_config.cropType
  let optimal_crops :=
    match dictGet climate_zones climate_zone with
    | some zd => zd.optimal_crops
    | none => []
  if optimal_crops.contains crop_type then 11/10 else 9/10

/-- Output of `_analyze_climate_zone`, one constructor per return shape. -/
inductive ClimateAnalysis where
  | notSpecified (message : String) (available_zones : List String)
      (required_fields : List String)
  | unknownZone (message : String) (available_zones : List String)
      (current_value : String) (required_fields : List String)
  | ok (climate_zone : String) (optimal_temperature_range : ℚ × ℚ)
      (optimal_humidity_range : ℚ × ℚ)
      (current_temperature_status current_humidity_status : String)
      (recommended_crops : List String) (monthly_rainfall_pattern : List ℚ)
deriving DecidableEq

/-- The echoed canonical zone label of a successful analysis. -/
def ClimateAnalysis.zoneLabel : ClimateAnalysis → Option String
  | .ok z _ _ _ _ _ _ => some z
  | _ => none

/-- `_analyze_climate_zone`: strip, empty check, exact lookup, then
case-insensitive fallback canonicalizing the zone name, then range checks
against the aggregate's averages (default 0). -/
def analyze_climate_zone (farm_config : FarmConfig)
    (sensor_analysis : SensorAnalysis) : ClimateAnalysis :=
  let climate_zone := pyStrip farm_config.climateZone
  if climate_zone = "" then
    .notSpecified
      "Please set your climate zone in the farm configuration settings"
      (climate_zones.map (fun p => p.1)) ["climateZone"]
  else
    let resolved :=
      match dictGet climate_zones climate_zone with
      | some zd => some (climate_zone, zd)
      | none => ciFind climate_zones climate_zone
    match resolved with
    | none =>
      .unknownZone
        ("Climate zone \"" ++ climate_zone ++
         "\" not recognized. Please select from available options.")
        (climate_zones.map (fun p => p.1)) climate_zone ["climateZone"]
    | some (zname, zone_data) =>
      let current_temp := sensor_analysis.getAvgTemp 0
      let current_humidity := sensor_analysis.getAvgHumidity 0
      let temp_optimal := zone_data.temperature_range.1 ≤ current_temp ∧
        current_temp ≤ zone_data.temperature_range.2
      let humidity_optimal := zone_data.humidity_range.1 ≤ current_humidity ∧
        current_humidity ≤ zone_data.humidity_range.2
      .ok zname zone_data.temperature_range zone_data.humidity_range
        (if temp_optimal then "Optimal" else "Outside range")
        (if humidity_optimal then "Optimal" else "Outside range")
        zone_data.optimal_crops zone_data.rainfall_mm

/-- `_calculate_temperature_factor`: temperature impact factor. -/
def calculate_temperature_factor (temp : ℚ) : ℚ :=
  if 20 ≤ temp ∧ temp ≤ 30 then
    1 + (1/10 * (30 - |temp - 25|) / 5)
  else if temp < 20 then
    1/2 + temp / 40
  else
    max (1/2) (1 - (temp - 30) / 20)

/-- `_calculate_moisture_factor`: soil moisture impact factor. -/
def calculate_moisture_factor (moisture : ℚ) : ℚ :=
  if 40 ≤ moisture ∧ moisture ≤ 70 then
    6/5
  else if moisture < 40 then
    1/2 + moisture / 80
  else
    max (7/10) (6/5 - (moisture - 70) / 60)

/-- `_get_yield_unit`: crop → unit table with default. -/
def get_yield_unit (crop_type : String) : String :=
  (dictGet [("Rice", "tons/acre"), ("Tea", "kg/acre"),
            ("Coconut", "nuts/tree"), ("Rubber", "kg/acre")] crop_type).getD "kg/acre"

/-- `_categorize_yield`: bucket the predicted/base ratio. -/
def categorize_yield (predicted base : ℚ) : String :=
  let ratio := if base > 0 then predicted / base else 0
  if ratio ≥ 11/10 then "Excellent"
  else if ratio ≥ 9/10 then "Good"
  else if ratio ≥ 7/10 then "Average"
  else "Below Average"

/-- The success dict of `_predict_yield`. -/
structure YieldSuccess where
  crop_type : String
  seed_variety : String
  field_size_acres : ℚ
  base_yield_per_acre : ℚ
  predicted_yield_per_acre : ℚ
  total_predicted_yield : ℚ
  yield_unit : String
  temperature_factor : ℚ
  moisture_factor : ℚ
  climate_factor : ℚ
  confidence_percentage : ℚ
  yield_category : String
deriving DecidableEq

/-- Output of `_predict_yield`, one constructor per return shape. -/
inductive YieldResult where
  | cropTypeNotSpecified
  | fieldSizeInvalid (current_value : FieldVal)
  | noYieldData (crop_type : String)
  | success (s : YieldSuccess)
deriving DecidableEq

/-- The `status` key of a yield result (success dicts carry none). -/
def YieldResult.statusOf : YieldResult → Option String
  | .cropTypeNotSpecified => some "Crop type not specified"
  | .fieldSizeInvalid _ => some "Field size not specified or invalid"
  | .noYieldData c => some ("No yield data available for " ++ c)
  | .success _ => none

/-- Canonicalized crop name of a successful prediction. -/
def YieldResult.cropTypeOf : YieldResult → Option String
  | .success s => some s.crop_type
  | _ => none

/-- Rounded base yield per acre of a successful prediction. -/
def YieldResult.baseYieldOf : YieldResult → Option ℚ
  | .success s => some s.base_yield_per_acre
  | _ => none

/-- Rounded climate factor of a successful prediction. -/
def YieldResult.climateFactorOf : YieldResult → Option ℚ
  | .success s => some s.climate_factor
  | _ => none

/-- Lines 350–358 of `_predict_yield` (also lines 450–458 of
`_forecast_harvest`): crop lookup by exact key, falling back to a
case-insensitive scan that canonicalizes the crop name; a miss leaves the
probe name and the empty dict. -/
def resolve_crop_data (crop_type : String) :
    String × List (String × CropVariety) :=
  let crop_data0 := (dictGet crop_varieties crop_type).getD []
  if crop_data0.isEmpty then
    match ciFind crop_varieties crop_type with
    | some (name, cd) => (name, cd)
    | none => (crop_type, crop_data0)
  else (crop_type, crop_data0)

/-- Lines 362–369 of `_predict_yield`: variety lookup by exact key, then a
case-insensitive scan when the variety string is nonempty. -/
def resolve_variety_data (crop_data : List (String × CropVariety))
    (seed_variety : String) : Option CropVariety :=
  match dictGet crop_data seed_variety with
  | some v => some v
  | none =>
    if seed_variety ≠ "" then (ciFind crop_data seed_variety).map (fun p => p.2)
    else none

/-- Lines 371–375 of `_predict_yield`: base yield from the resolved
variety's `yield_per_acre` (0 when the key is absent), else the mean of
`yield_per_acre` across the crop's varieties (0 when there are none). -/
def base_yield_for (crop_data : List (String × CropVariety))
    (seed_variety : String) : ℚ :=
  match resolve_variety_data crop_data seed_variety with
  | some v => v.yield_per_acre.getD 0
  | none =>
    if crop_data.isEmpty then 0
    else listMean (crop_data.map (fun p => p.2.yield_per_acre.getD 0))

/-- `_predict_yield`: validation (crop type first, then field size), crop
lookup with case-insensitive fallback canonicalizing the crop name, variety
lookup with case-insensitive fallback, base yield from the variety or the
across-varieties mean, then the three environmental factors averaged. -/
def predict_yield (farm_config : FarmConfig)
    (sensor_analysis : SensorAnalysis) : YieldResult :=
  let crop_type := pyStrip farm_config.cropType
  let seed_variety := pyStrip farm_config.seedVariety
  let field_size_str := farm_config.fieldSize
  let field_size := parse_field_size field_size_str
  if crop_type = "" then .cropTypeNotSpecified
  else if field_size ≤ 0 then .fieldSizeInvalid field_size_str
  else
    let resolved := resolve_crop_data crop_type
    let crop_type := resolved.1
    let crop_data : List (String × CropVariety) := resolved.2
    let base_yield_per_acre := base_yield_for crop_data seed_variety
    if base_yield_per_acre = 0 then .noYieldData crop_type
    else
      let temp_factor := calculate_temperature_factor (sensor_analysis.getAvgTemp 25)
      let moisture_factor :=
        calculate_moisture_factor (sensor_analysis.getAvgSoilMoisture 50)
      let climate_factor := calculate_climate_factor farm_config
      let total_factor := (temp_factor + moisture_factor + climate_factor) / 3
      let predicted_yield_per_acre := base_yield_per_acre * total_factor
      let total_predicted_yield := predicted_yield_per_acre * field_size
      let confidence : ℚ :=
        min 95 (max 60 (80 + (sensor_analysis.getDataPoints 1 : ℚ) * 2))
      .success
        { crop_type := crop_type
          seed_variety := seed_variety
          field_size_acres := field_size
          base_yield_per_acre := pyRound 2 base_yield_per_acre
          predicted_yield_per_acre := pyRound 2 predicted_yield_per_acre
          total_predicted_yield := pyRound 2 total_predicted_yield
          yield_unit := get_yield_unit crop_type
          temperature_factor := pyRound 3 temp_factor
          moisture_factor := pyRound 3 moisture_factor
          climate_factor := pyRound 3 climate_factor
          confidence_percentage := pyRound 1 confidence
          yield_category := categorize_yield predicted_yield_per_acre base_yield_per_acre }

/-- `_get_prevention_measures`: keyword substring matching over the
triggered risk-factor messages. -/
def get_prevention_measures (risk_factors : List String) : List String :=
  risk_factors.flatMap (fun factor =>
    (if strContainsSub (pyLower factor) "fungal" then
      ["Apply organic fungicide (neem oil solution)"] else []) ++
    (if strContainsSub (pyLower factor) "root rot" then
      ["Improve drainage and reduce irrigation frequency"] else []) ++
    (if strContainsSub (pyLower factor) "drought" then
      ["Implement drip irrigation or mulching"] else []) ++
    (if strContainsSub (pyLower factor) "heat stress" then
      ["Provide shade netting during hottest hours"] else []))

/-- `_get_monitoring_advice`: advice bucketed by risk level. -/
def get_monitoring_advice (risk_level : ℕ) : String :=
  if risk_level < 30 then "Regular weekly monitoring is sufficient"
  else if risk_level < 60 then "Monitor twice weekly and watch for early symptoms"
  else "Daily monitoring recommended - take immediate preventive action"

/-- Output dict of `_assess_disease_risk`. -/
structure DiseaseRisk where
  overall_risk_level : ℕ
  risk_category : String
  risk_factors : List String
  prevention_measures : List String
  monitoring_advice : String
deriving DecidableEq

/-- `_assess_disease_risk`: additive rule-based risk score (capped at 100)
with its triggered factor messages.  Sensor averages default to 25 / 70 / 50
when the aggregate carries no data. -/
def assess_disease_risk (sensor_analysis : SensorAnalysis)
    (farm_config : FarmConfig) : DiseaseRisk :=
  let temp := sensor_analysis.getAvgTemp 25
  let humidity := sensor_analysis.getAvgHumidity 70
  let soil_moisture := sensor_analysis.getAvgSoilMoisture 50
  let crop_type := farm_config.cropType
  let risk_factors :=
    (if humidity > 80 ∧ 20 < temp ∧ temp < 30 then
      ["High fungal disease risk due to humid conditions"] else []) ++
    (if soil_moisture > 80 then ["Root rot risk due to waterlogged soil"] else []) ++
    (if soil_moisture < 20 then ["Plant stress due to drought conditions"] else []) ++
    (if temp > 35 then ["Heat stress risk for crops"]
     else if temp < 15 then ["Cold stress risk for tropical crops"] else []) ++
    (if crop_type = "Rice" then
      (if humidity > 85 then ["Blast disease risk in rice"] else [])
     else if crop_type = "Tea" then
      (if temp > 32 then ["Tea leaf scorch risk"] else [])
     else [])
  let risk_level := min 100
    ((if humidity > 80 ∧ 20 < temp ∧ temp < 30 then 30 else 0) +
     (if soil_moisture > 80 then 25 else 0) +
     (if soil_moisture < 20 then 20 else 0) +
     (if temp > 35 then 15 else if temp < 15 then 10 else 0) +
     (if crop_type = "Rice" then (if humidity > 85 then 20 else 0)
      else if crop_type = "Tea" then (if temp > 32 then 15 else 0)
      else 0))
  { overall_risk_level := risk_level
    risk_category :=
      if risk_level < 30 then "Low"
      else if risk_level < 60 then "Medium"
      else "High"
    risk_factors := risk_factors
    prevention_measures := get_prevention_measures risk_factors
    monitoring_advice := get_monitoring_advice risk_level }

/-- The weights of the seven disease-risk rules, in source order. -/
def disease_rule_weights : List ℕ := [30, 25, 20, 15, 10, 20, 15]

/-- A calendar date (Python `datetime` at midnight). -/
structure Date where
  year : ℤ
  month : ℤ
  day : ℤ
deriving DecidableEq

/-- Days since the civil epoch 1970-01-01 (proleptic Gregorian calendar;
`ℤ` division by a positive divisor is floor division). -/
def Date.toDays (d : Date) : ℤ :=
  let y := if d.month ≤ 2 then d.year - 1 else d.year
  let era := y / 400
  let yoe := y - era * 400
  let mp := if 2 < d.month then d.month - 3 else d.month + 9
  let doy := (153 * mp + 2) / 5 + d.day - 1
  let doe := yoe * 365 + yoe / 4 - yoe / 100 + doy
  era * 146097 + doe - 719468

/-- Inverse of `Date.toDays`. -/
def Date.fromDays (z0 : ℤ) : Date :=
  let z := z0 + 719468
  let era := z / 146097
  let doe := z - era * 146097
  let yoe := (doe - doe / 1460 + doe / 36524 - doe / 146096) / 365
  let y := yoe + era * 400
  let doy := doe - (365 * yoe + yoe / 4 - yoe / 100)
  let mp := (5 * doy + 2) / 153
  let d := doy - (153 * mp + 2) / 5 + 1
  let m := if mp < 10 then mp + 3 else mp - 9
  ⟨if m ≤ 2 then y + 1 else y, m, d⟩

/-- Gregorian leap-year rule. -/
def isLeapYear (y : ℤ) : Bool :=
  (y % 4 == 0 && y % 100 != 0) || (y % 400 == 0)

/-- Length of a month, for date validation. -/
def daysInMonth (y m : ℤ) : ℤ :=
  if m = 2 then (if isLeapYear y then 29 else 28)
  else if m = 4 ∨ m = 6 ∨ m = 9 ∨ m = 11 then 30
  else 31

/-- `datetime.strptime(s, '%Y-%m-%d')` as a total function: exactly three
dash-separated fields, a 4-digit year, 1–2-digit month in 1..12, 1–2-digit
day valid for the month; `none` models `ValueError`. -/
def parse_ymd (s : String) : Option Date :=
  match s.data.splitOn '-' with
  | [ys, ms, ds] =>
    if ys.length = 4 ∧ ys.all Char.isDigit ∧
       (ms.length = 1 ∨ ms.length = 2) ∧ ms.all Char.isDigit ∧
       (ds.length = 1 ∨ ds.length = 2) ∧ ds.all Char.isDigit then
      match digitsVal ys, digitsVal ms, digitsVal ds with
      | some y, some m, some d =>
        if 1 ≤ m ∧ m ≤ 12 ∧ 1 ≤ d ∧ (d : ℤ) ≤ daysInMonth y m then
          some ⟨y, m, d⟩
        else none
      | _, _, _ => none
    else none
  | _ => none

/-- Lines 434–447 of `_forecast_harvest`: the `try` block resolving the
planting-date string; `none` models the swallowed parse exception. -/
def resolve_planting_date (planting_date : String) (current_year : ℤ) :
    Option Date :=
  if strContainsSub (pyLower planting_date) "yala" then
    some ⟨current_year, 5, 15⟩
  else if strContainsSub (pyLower planting_date) "maha" then
    some ⟨current_year, 11, 15⟩
  else parse_ymd planting_date

/-- `_get_growth_stage_name`: bucket a growth percentage. -/
def get_growth_stage_name (percentage : ℚ) : String :=
  if percentage < 25 then "Seedling Stage"
  else if percentage < 50 then "Vegetative Growth"
  else if percentage < 75 then "Flowering Stage"
  else if percentage < 95 then "Fruit Development"
  else "Harvest Ready"

/-- `_get_harvest_season`: season from the harvest month. -/
def get_harvest_season (harvest_date : Date) : String :=
  if harvest_date.month = 3 ∨ harvest_date.month = 4 ∨ harvest_date.month = 5 then
    "Yala Harvest Season"
  else if harvest_date.month = 8 ∨ harvest_date.month = 9 ∨ harvest_date.month = 10 then
    "Maha Harvest Season"
  else "Off-season Harvest"

/-- Output of `_forecast_harvest`, one constructor per return shape. -/
inductive HarvestForecast where
  | cropTypeNotSpecified
  | plantingDateNotSpecified
  | dateUnrecognized
  | noGrowthData (crop_type : String)
  | ok (crop_type : String) (planting_date expected_harvest_date : Date)
      (days_to_harvest : ℤ) (growth_stage_percentage : ℚ)
      (growth_stage_name harvest_season harvest_status : String)
deriving DecidableEq

/-- The `status` key of a harvest forecast, when present. -/
def HarvestForecast.statusOf : HarvestForecast → Option String
  | .cropTypeNotSpecified => some "Crop type not specified"
  | .plantingDateNotSpecified => some "Planting date not specified"
  | .dateUnrecognized =>
    some "Planting date not available or in unrecognized format"
  | .noGrowthData c => some ("No growth data available for " ++ c)
  | .ok _ _ _ _ _ _ _ _ => none

/-- The resolved planting date of a successful forecast. -/
def HarvestForecast.plantingDateOf : HarvestForecast → Option Date
  | .ok _ pd _ _ _ _ _ _ => some pd
  | _ => none

/-- `_forecast_harvest`: validation, planting-date resolution, crop lookup
with case-insensitive fallback, growth period from the first variety, then
harvest-date arithmetic. -/
def forecast_harvest (farm_config : FarmConfig) (current_time : Date) :
    HarvestForecast :=
  let crop_type := pyStrip farm_config.cropType
  let planting_date := pyStrip farm_config.plantingDate
  if crop_type = "" then .cropTypeNotSpecified
  else if planting_date = "" then .plantingDateNotSpecified
  else
    match resolve_planting_date planting_date current_time.year with
    | none => .dateUnrecognized
    | some planting_datetime =>
      let resolved := resolve_crop_data crop_type
      let crop_type := resolved.1
      match resolved.2 with
      | [] => .noGrowthData crop_type
      | gv :: _ =>
        let growth_data := gv.2
        let growth_period : ℤ :=
          match growth_data.growth_days with
          | some gd => (gd : ℤ)
          | none =>
            match growth_data.growth_years with
            | some gy => (gy : ℤ) * 365
            | none => 120
        let harvest_date := Date.fromDays (planting_datetime.toDays + growth_period)
        let days_to_harvest := harvest_date.toDays - current_time.toDays
        let days_since_planting := current_time.toDays - planting_datetime.toDays
        let growth_percentage : ℚ :=
          min 100 (max 0 (((days_since_planting : ℚ) / (growth_period : ℚ)) * 100))
        .ok crop_type planting_datetime harvest_date days_to_harvest
          (pyRound 1 growth_percentage) (get_growth_stage_name growth_percentage)
          (get_harvest_season harvest_date)
          (if days_to_harvest ≤ 0 then "Ready"
           else if days_to_harvest ≤ 30 then "Growing" else "Early stage")

/-- C1: the claim asserts the factor lies in [1.0, 1.1] on 20 ≤ t ≤ 30 with
value 1.1 at t = 25.  The code's formula gives 1.6 at t = 25: false. -/
theorem temperature_factor_claim_false_at_25 :
    calculate_temperature_factor 25 = 8/5 ∧ ¬ (calculate_temperature_factor 25 ≤ 11/10) := by
  constructor
  · norm_num [calculate_temperature_factor]
  · norm_num [calculate_temperature_factor]

/-- C1 (amended): for 20 ≤ t ≤ 30 the factor follows the source formula
1.0 + 0.1·(30 − |t − 25|)/5, lies in [1.5, 1.6], and attains its maximum
1.6 at t = 25. -/
theorem temperature_factor_band_bounds (t : ℚ) (h1 : 20 ≤ t) (h2 : t ≤ 30) :
    calculate_temperature_factor t = 1 + (1/10 * (30 - |t - 25|) / 5) ∧
    3/2 ≤ calculate_temperature_factor t ∧
    calculate_temperature_factor t ≤ 8/5 ∧
    calculate_temperature_factor t ≤ calculate_temperature_factor 25 ∧
    calculate_temperature_factor 25 = 8/5 := by
  have habs1 : |t - 25| ≤ 5 := abs_le.mpr ⟨by linarith, by linarith⟩
  have habs0 : 0 ≤ |t - 25| := abs_nonneg _
  have hval : calculate_temperature_factor t = 1 + (1/10 * (30 - |t - 25|) / 5) := by
    unfold calculate_temperature_factor
    rw [if_pos ⟨h1, h2⟩]
  have h25 : calculate_temperature_factor 25 = 8/5 := by
    norm_num [calculate_temperature_factor]
  refine ⟨hval, ?_, ?_, ?_, h25⟩
  · rw [hval]; linarith
  · rw [hval]; linarith
  · rw [hval, h25]; linarith

/-- C1 amended-claim witness at t = 27. -/
theorem temperature_factor_band_bounds_witness :
    calculate_temperature_factor 27 = 1 + (1/10 * (30 - |(27 : ℚ) - 25|) / 5) ∧
    3/2 ≤ calculate_temperature_factor 27 ∧
    calculate_temperature_factor 27 ≤ 8/5 ∧
    calculate_temperature_factor 27 ≤ calculate_temperature_factor 25 ∧
    calculate_temperature_factor 25 = 8/5 :=
  temperature_factor_band_bounds 27 (by norm_num) (by norm_num)

/-- C2: the moisture factor is exactly 1.2 on [40, 70]; above 70 it is
monotonically non-increasing and never drops below 0.7. -/
theorem moisture_factor_plateau_monotone :
    (∀ m : ℚ, 40 ≤ m → m ≤ 70 → calculate_moisture_factor m = 6/5) ∧
    (∀ m1 m2 : ℚ, 70 < m1 → m1 < m2 →
      calculate_moisture_factor m2 ≤ calculate_moisture_factor m1) ∧
    (∀ m : ℚ, 70 < m → 7/10 ≤ calculate_moisture_factor m) := by
  refine ⟨?_, ?_, ?_⟩
  · intro m h1 h2
    unfold calculate_moisture_factor
    rw [if_pos ⟨h1, h2⟩]
  · intro m1 m2 h1 h2
    have hm1 : calculate_moisture_factor m1 = max (7/10) (6/5 - (m1 - 70) / 60) := by
      unfold calculate_moisture_factor
      rw [if_neg (by push_neg; intro _; linarith), if_neg (by linarith)]
    have hm2 : calculate_moisture_factor m2 = max (7/10) (6/5 - (m2 - 70) / 60) := by
      unfold calculate_moisture_factor
      rw [if_neg (by push_neg; intro _; linarith), if_neg (by linarith)]
    rw [hm1, hm2]
    exact max_le_max (le_refl _) (by linarith)
  · intro m h
    unfold calculate_moisture_factor
    rw [if_neg (by push_neg; intro _; linarith), if_neg (by linarith)]
    exact le_max_left _ _

/-- C2 witness: plateau at m = 55, monotone step 75 → 80, floor at m = 200. -/
theorem moisture_factor_plateau_monotone_witness :
    calculate_moisture_factor 55 = 6/5 ∧
    calculate_moisture_factor 80 ≤ calculate_moisture_factor 75 ∧
    7/10 ≤ calculate_moisture_factor 200 :=
  ⟨moisture_factor_plateau_monotone.1 55 (by norm_num) (by norm_num),
   moisture_factor_plateau_monotone.2.1 75 80 (by norm_num) (by norm_num),
   moisture_factor_plateau_monotone.2.2 200 (by norm_num)⟩

/-- C3: the yield predictor returns the crop-type error when the stripped
crop type is empty (checked first, regardless of field size), and the
distinct field-size error when the crop type is nonempty and the parsed
field size is ≤ 0; a non-numeric field-size string parses to 0 and hence
hits that error; both are status results, not success values. -/
theorem predict_yield_validation (fc : FarmConfig) (sa : SensorAnalysis) :
    (pyStrip fc.cropType = "" → predict_yield fc sa = .cropTypeNotSpecified) ∧
    (pyStrip fc.cropType ≠ "" → parse_field_size fc.fieldSize ≤ 0 →
      predict_yield fc sa = .fieldSizeInvalid fc.fieldSize) ∧
    (∀ s : String, pyFloatOfString s = none → parse_field_size (.str s) = 0) ∧
    YieldResult.cropTypeNotSpecified ≠ YieldResult.fieldSizeInvalid fc.fieldSize ∧
    YieldResult.statusOf .cropTypeNotSpecified = some "Crop type not specified" ∧
    YieldResult.statusOf (.fieldSizeInvalid fc.fieldSize) =
      some "Field size not specified or invalid" := by
  refine ⟨?_, ?_, ?_, by simp, rfl, rfl⟩
  · intro h
    simp [predict_yield, h]
  · intro h1 h2
    simp [predict_yield, h1, h2]
  · intro s h
    simp [parse_field_size, FieldVal.isFalsy, h]

/-- C3 witness: empty crop type wins over a valid field size; crop "Rice"
with the non-numeric field size "abc" gives the field-size error. -/
theorem predict_yield_validation_witness :
    predict_yield { cropType := "", fieldSize := .num 5 } .noData =
      .cropTypeNotSpecified ∧
    predict_yield { cropType := "Rice", fieldSize := .str "abc" } .noData =
      .fieldSizeInvalid (.str "abc") ∧
    parse_field_size (.str "abc") = 0 :=
  ⟨(predict_yield_validation { cropType := "", fieldSize := .num 5 } .noData).1
     (by decide),
   (predict_yield_validation { cropType := "Rice", fieldSize := .str "abc" }
       .noData).2.1 (by decide) (by decide),
   (predict_yield_validation { cropType := "Rice", fieldSize := .str "abc" }
       .noData).2.2.1 "abc" (by decide)⟩

/-- C4: any planting-date string containing "yala" (case-insensitive)
resolves to May 15 of the current year; "maha" (only checked when "yala"
is absent) resolves to November 15; otherwise the string is parsed
strictly as YYYY-MM-DD, and when resolution fails the forecaster returns
the unrecognized-format status instead of raising. -/
theorem harvest_date_resolution (s : String) (y : ℤ) (fc : FarmConfig) (d : Date) :
    (strContainsSub (pyLower s) "yala" = true →
      resolve_planting_date s y = some ⟨y, 5, 15⟩) ∧
    (strContainsSub (pyLower s) "yala" = false →
      strContainsSub (pyLower s) "maha" = true →
      resolve_planting_date s y = some ⟨y, 11, 15⟩) ∧
    (strContainsSub (pyLower s) "yala" = false →
      strContainsSub (pyLower s) "maha" = false →
      resolve_planting_date s y = parse_ymd s) ∧
    (pyStrip fc.cropType ≠ "" → pyStrip fc.plantingDate ≠ "" →
      resolve_planting_date (pyStrip fc.plantingDate) d.year = none →
      forecast_harvest fc d = .dateUnrecognized) ∧
    (pyStrip fc.cropType ≠ "" →
      strContainsSub (pyLower (pyStrip fc.plantingDate)) "yala" = true →
      (forecast_harvest fc d).plantingDateOf = some ⟨d.year, 5, 15⟩ ∨
        forecast_harvest fc d =
          .noGrowthData (resolve_crop_data (pyStrip fc.cropType)).1) ∧
    HarvestForecast.statusOf .dateUnrecognized =
      some "Planting date not available or in unrecognized format" := by
  refine ⟨?_, ?_, ?_, ?_, ?_, rfl⟩
  · intro h
    simp [resolve_planting_date, h]
  · intro h1 h2
    simp [resolve_planting_date, h1, h2]
  · intro h1 h2
    simp [resolve_planting_date, h1, h2]
  · intro h1 h2 h3
    simp [forecast_harvest, h1, h2, h3]
  · intro h1 h2
    have hne : pyStrip fc.plantingDate ≠ "" := by
      intro he
      rw [he] at h2
      simp [strContainsSub, pyLower, containsSubChars] at h2
    have hres : resolve_planting_date (pyStrip fc.plantingDate) d.year =
        some ⟨d.year, 5, 15⟩ := by
      simp [resolve_planting_date, h2]
    cases hcd : (resolve_crop_data (pyStrip fc.cropType)).2 with
    | nil =>
      right
      simp [forecast_harvest, h1, hne, hres, hcd]
    | cons gv rest =>
      left
      simp [forecast_harvest, h1, hne, hres, hcd, HarvestForecast.plantingDateOf]

/-- C4 witness: "yala" inside a larger string beats everything else;
"Maha season" resolves to November 15; a plain date falls through to the
strict parser; an unparseable date gives the unrecognized-format status. -/
theorem harvest_date_resolution_witness :
    resolve_planting_date "xxYALAyy 2024-99-99" 2025 = some ⟨2025, 5, 15⟩ ∧
    resolve_planting_date "Maha season" 2025 = some ⟨2025, 11, 15⟩ ∧
    resolve_planting_date "2024-05-15" 2025 = parse_ymd "2024-05-15" ∧
    forecast_harvest { cropType := "Rice", plantingDate := "15/05/2024" }
      ⟨2025, 10, 12⟩ = .dateUnrecognized ∧
    ((forecast_harvest { cropType := "Rice", plantingDate := "Yala" }
        ⟨2025, 10, 12⟩).plantingDateOf = some ⟨2025, 5, 15⟩ ∨
      forecast_harvest { cropType := "Rice", plantingDate := "Yala" }
        ⟨2025, 10, 12⟩ = .noGrowthData (resolve_crop_data (pyStrip "Rice")).1) :=
  ⟨(harvest_date_resolution "xxYALAyy 2024-99-99" 2025 {} ⟨2025, 10, 12⟩).1
     (by decide),
   (harvest_date_resolution "Maha season" 2025 {} ⟨2025, 10, 12⟩).2.1
     (by decide) (by decide),
   (harvest_date_resolution "2024-05-15" 2025 {} ⟨2025, 10, 12⟩).2.2.1
     (by decide) (by decide),
   (harvest_date_resolution "" 2025
       { cropType := "Rice", plantingDate := "15/05/2024" } ⟨2025, 10, 12⟩).2.2.2.1
     (by decide) (by decide) (by decide),
   (harvest_date_resolution "" 2025
       { cropType := "Rice", plantingDate := "Yala" } ⟨2025, 10, 12⟩).2.2.2.2.1
     (by decide) (by decide)⟩

/-- A string outside both branch lists is outside the conditional list. -/
lemma not_mem_ite_lists {c : Prop} [Decidable c] {x : String} {l1 l2 : List String}
    (h1 : x ∉ l1) (h2 : x ∉ l2) : x ∉ (if c then l1 else l2) := by
  by_cases hc : c
  · rw [if_pos hc]; exact h1
  · rw [if_neg hc]; exact h2

/-- C5: the disease-risk score is min-clamped so it always lies in
[0, 100]; the two extreme-temperature rules are in one if/elif chain so
their factor messages can never both appear; the category thresholds are
<30 Low, <60 Medium, else High; and the raw sum of all seven rule weights
exceeds 100, so the clamp is what keeps the score in range. -/
theorem disease_risk_clamped_bounds (sa : SensorAnalysis) (fc : FarmConfig) :
    (assess_disease_risk sa fc).overall_risk_level ≤ 100 ∧
    0 ≤ (assess_disease_risk sa fc).overall_risk_level ∧
    ¬("Heat stress risk for crops" ∈ (assess_disease_risk sa fc).risk_factors ∧
      "Cold stress risk for tropical crops" ∈
        (assess_disease_risk sa fc).risk_factors) ∧
    (assess_disease_risk sa fc).risk_category =
      (if (assess_disease_risk sa fc).overall_risk_level < 30 then "Low"
       else if (assess_disease_risk sa fc).overall_risk_level < 60 then "Medium"
       else "High") ∧
    100 < disease_rule_weights.sum := by
  refine ⟨?_, Nat.zero_le _, ?_, rfl, by decide⟩
  · simp only [assess_disease_risk]
    exact Nat.min_le_left _ _
  · rintro ⟨hH, hC⟩
    simp only [assess_disease_risk, List.mem_append] at hH hC
    by_cases h35 : sa.getAvgTemp 25 > 35
    · rcases hC with ((((c1 | c2) | c3) | c4) | c5)
      · exact absurd c1 (not_mem_ite_lists (by decide) (by decide))
      · exact absurd c2 (not_mem_ite_lists (by decide) (by decide))
      · exact absurd c3 (not_mem_ite_lists (by decide) (by decide))
      · rw [if_pos h35] at c4
        exact absurd c4 (by decide)
      · exact absurd c5 (not_mem_ite_lists
          (not_mem_ite_lists (by decide) (by decide))
          (not_mem_ite_lists (not_mem_ite_lists (by decide) (by decide)) (by decide)))
    · rcases hH with ((((h1 | h2) | h3) | h4) | h5)
      · exact absurd h1 (not_mem_ite_lists (by decide) (by decide))
      · exact absurd h2 (not_mem_ite_lists (by decide) (by decide))
      · exact absurd h3 (not_mem_ite_lists (by decide) (by decide))
      · rw [if_neg h35] at h4
        exact absurd h4 (not_mem_ite_lists (by decide) (by decide))
      · exact absurd h5 (not_mem_ite_lists
          (not_mem_ite_lists (by decide) (by decide))
          (not_mem_ite_lists (not_mem_ite_lists (by decide) (by decide)) (by decide)))

/-- C7: the aggregator maps an empty sample list to the bare
no-data status; the disease-risk analyzer then reads its own defaults
25 / 70 / 50 (risk 0 for every config), not the aggregator's 0.0 averages
(which would give risk 30); being a total function it returns a
structured result on the no-data aggregate for every config. -/
theorem empty_sensor_data_defaults (fc : FarmConfig) :
    analyze_sensor_data [] = .noData ∧
    (analyze_sensor_data []).statusOf = some "No sensor data available" ∧
    assess_disease_risk .noData fc =
      assess_disease_risk (.stats 25 70 50 (0, 0) 0 0) fc ∧
    (assess_disease_risk .noData fc).overall_risk_level = 0 ∧
    (assess_disease_risk (.stats 0 0 0 (0, 0) 0 0) fc).overall_risk_level = 30 := by
  refine ⟨rfl, rfl, rfl, ?_, ?_⟩
  · simp only [assess_disease_risk, SensorAnalysis.getAvgTemp,
      SensorAnalysis.getAvgHumidity, SensorAnalysis.getAvgSoilMoisture]
    norm_num
  · simp only [assess_disease_risk, SensorAnalysis.getAvgTemp,
      SensorAnalysis.getAvgHumidity, SensorAnalysis.getAvgSoilMoisture]
    norm_num

/-- C6: the climate-zone lookup is case-insensitive — "wet zone" and
"Wet Zone" give identical results for every sensor aggregate, with the
canonical "Wet Zone" casing echoed; an empty zone yields the
not-specified status carrying the valid-zone list; a nonempty zone
matching no table key (exactly or case-insensitively) yields the
unknown-zone status echoing the input and the valid-zone list. -/
theorem climate_zone_case_insensitive (fc : FarmConfig) (sa : SensorAnalysis) :
    analyze_climate_zone { fc with climateZone := "wet zone" } sa =
      analyze_climate_zone { fc with climateZone := "Wet Zone" } sa ∧
    (analyze_climate_zone { fc with climateZone := "wet zone" } sa).zoneLabel =
      some "Wet Zone" ∧
    (pyStrip fc.climateZone = "" →
      analyze_climate_zone fc sa =
        .notSpecified
          "Please set your climate zone in the farm configuration settings"
          ["Wet Zone", "Dry Zone", "Intermediate Zone"] ["climateZone"]) ∧
    (pyStrip fc.climateZone ≠ "" →
      dictGet climate_zones (pyStrip fc.climateZone) = none →
      ciFind climate_zones (pyStrip fc.climateZone) = none →
      analyze_climate_zone fc sa =
        .unknownZone
          ("Climate zone \"" ++ pyStrip fc.climateZone ++
            "\" not recognized. Please select from available options.")
          ["Wet Zone", "Dry Zone", "Intermediate Zone"]
          (pyStrip fc.climateZone) ["climateZone"]) := by
  refine ⟨rfl, rfl, ?_, ?_⟩
  · intro h
    simp [analyze_climate_zone, h, climate_zones]
  · intro h1 h2 h3
    simp only [analyze_climate_zone, h1, h2, h3]
    simp [climate_zones]

/-- C6 witness: empty zone and the unmatched zone "Arctic". -/
theorem climate_zone_case_insensitive_witness :
    analyze_climate_zone {} .noData =
      .notSpecified
        "Please set your climate zone in the farm configuration settings"
        ["Wet Zone", "Dry Zone", "Intermediate Zone"] ["climateZone"] ∧
    analyze_climate_zone { climateZone := "Arctic" } .noData =
      .unknownZone
        "Climate zone \"Arctic\" not recognized. Please select from available options."
        ["Wet Zone", "Dry Zone", "Intermediate Zone"] "Arctic" ["climateZone"] :=
  ⟨(climate_zone_case_insensitive {} .noData).2.2.1 (by decide),
   (climate_zone_case_insensitive { climateZone := "Arctic" } .noData).2.2.2
     (by decide) (by decide) (by decide)⟩

attribute [local semireducible] Rat.add Rat.mul Rat.inv Rat.sub in
/-- C8: on the scenario input (one sample with temperature 32,
humidity 88, soil moisture 75; Wet Zone, Rice, BG 352, field size "2"),
the yield prediction carries crop "Rice" with base yield 4.5; the generic
fungal rule does not fire (32 is outside 20 < t < 30) while the
rice-blast rule does (+20, the whole score). -/
theorem scenario_wet_zone_rice :
    (predict_yield ⟨"", "Wet Zone", "Rice", "BG 352", "2024-05-15", .str "2"⟩
        (analyze_sensor_data [⟨some 32, some 88, some 75, 1⟩])).cropTypeOf =
      some "Rice" ∧
    (predict_yield ⟨"", "Wet Zone", "Rice", "BG 352", "2024-05-15", .str "2"⟩
        (analyze_sensor_data [⟨some 32, some 88, some 75, 1⟩])).baseYieldOf =
      some (9/2) ∧
    "Blast disease risk in rice" ∈
      (assess_disease_risk (analyze_sensor_data [⟨some 32, some 88, some 75, 1⟩])
        ⟨"", "Wet Zone", "Rice", "BG 352", "2024-05-15", .str "2"⟩).risk_factors ∧
    "High fungal disease risk due to humid conditions" ∉
      (assess_disease_risk (analyze_sensor_data [⟨some 32, some 88, some 75, 1⟩])
        ⟨"", "Wet Zone", "Rice", "BG 352", "2024-05-15", .str "2"⟩).risk_factors ∧
    (assess_disease_risk (analyze_sensor_data [⟨some 32, some 88, some 75, 1⟩])
        ⟨"", "Wet Zone", "Rice", "BG 352", "2024-05-15", .str "2"⟩).overall_risk_level =
      20 := by
  refine ⟨by decide, by decide, by decide, by decide, by decide⟩

/-- A value found by `dictGet` is the second component of a list entry. -/
lemma dictGet_mem {α : Type} {l : List (String × α)} {k : String} {v : α}
    (h : dictGet l k = some v) : ∃ p, p ∈ l ∧ p.2 = v := by
  unfold dictGet at h
  cases hf : List.find? (fun p => p.1 == k) l with
  | none => rw [hf] at h; simp at h
  | some p =>
    rw [hf] at h
    simp at h
    exact ⟨p, List.mem_of_find?_eq_some hf, h⟩

/-- An entry found by `ciFind` is a list entry. -/
lemma ciFind_mem {α : Type} {l : List (String × α)} {k : String} {p : String × α}
    (h : ciFind l k = some p) : p ∈ l :=
  List.mem_of_find?_eq_some h

/-- Every route through the variety lookup gives base yield 0 for
Coconut: both variety records lack `yield_per_acre`, so the resolved
record contributes 0 and the across-varieties mean is the mean of
zeros. -/
lemma base_yield_coconut_zero (sv : String) :
    base_yield_for coconut_varieties sv = 0 := by
  have hall : ∀ p ∈ coconut_varieties, p.2.yield_per_acre = none := by decide
  unfold base_yield_for resolve_variety_data
  cases hd : dictGet coconut_varieties sv with
  | some v =>
    obtain ⟨p, hp, hv⟩ := dictGet_mem hd
    have hy : v.yield_per_acre = none := hv ▸ hall p hp
    simp [hy]
  | none =>
    by_cases hsv : sv = ""
    · subst hsv
      norm_num [coconut_varieties, listMean]
    · simp only [ne_eq, hsv, not_false_iff, if_true]
      cases hc : ciFind coconut_varieties sv with
      | none => simp [hc]; norm_num [coconut_varieties, listMean]
      | some p =>
        have hy : p.2.yield_per_acre = none := hall p (ciFind_mem hc)
        simp [hc, hy]

/-- C9: for crop "Coconut" the yield predictor answers the
no-yield-data status for every seed variety, every sensor aggregate and
every positive field size, because no Coconut variety defines
`yield_per_acre`. -/
theorem coconut_no_yield_data (fc : FarmConfig) (sa : SensorAnalysis)
    (hc : pyStrip fc.cropType = "Coconut")
    (hf : 0 < parse_field_size fc.fieldSize) :
    predict_yield fc sa = .noYieldData "Coconut" := by
  have hres : resolve_crop_data "Coconut" = ("Coconut", coconut_varieties) := by
    decide
  have hfs : ¬ parse_field_size fc.fieldSize ≤ 0 := not_le.mpr hf
  simp [predict_yield, hc, hres, hfs, base_yield_coconut_zero]

attribute [local semireducible] Rat.add Rat.mul Rat.inv Rat.sub in
/-- C9 witness: Coconut with the unresolvable variety casing "TALL" and
field size "1.5". -/
theorem coconut_no_yield_data_witness :
    pyStrip ("  Coconut " : String) = "Coconut" ∧
    (0 : ℚ) < parse_field_size (.str "1.5") ∧
    predict_yield
        { cropType := "  Coconut ", seedVariety := "TALL", fieldSize := .str "1.5" }
        .noData =
      .noYieldData "Coconut" :=
  ⟨by decide, by decide,
   coconut_no_yield_data
     { cropType := "  Coconut ", seedVariety := "TALL", fieldSize := .str "1.5" }
     .noData (by decide) (by decide)⟩

attribute [local semireducible] Rat.add Rat.mul Rat.inv Rat.sub in
/-- C10: `_calculate_climate_factor` uses the raw config strings with
exact-case lookups only — 1.1 exactly when the exact-case zone's
optimal-crop list contains the exact-case crop, 0.9 otherwise (including
"rice" in "Wet Zone" and "wet zone"), even while the same request's
yield predictor canonicalizes "rice" to "Rice" for its base-yield
lookup. -/
theorem climate_factor_exact_case (fc : FarmConfig) :
    (calculate_climate_factor fc = 9/10 ∨ calculate_climate_factor fc = 11/10) ∧
    (calculate_climate_factor fc = 11/10 ↔
      ∃ zd, dictGet climate_zones fc.climateZone = some zd ∧
        zd.optimal_crops.contains fc.cropType = true) ∧
    calculate_climate_factor { climateZone := "Wet Zone", cropType := "rice" } =
      9/10 ∧
    calculate_climate_factor { climateZone := "wet zone", cropType := "Rice" } =
      9/10 ∧
    calculate_climate_factor { climateZone := "Wet Zone", cropType := "Rice" } =
      11/10 ∧
    (predict_yield ⟨"", "Wet Zone", "rice", "BG 352", "", .str "2"⟩
        .noData).cropTypeOf = some "Rice" ∧
    (predict_yield ⟨"", "Wet Zone", "rice", "BG 352", "", .str "2"⟩
        .noData).climateFactorOf = some (9/10) := by
  refine ⟨?_, ?_, by decide, by decide, by decide, by decide, by decide⟩
  · unfold calculate_climate_factor
    dsimp only
    cases hz : dictGet climate_zones fc.climateZone with
    | none =>
      dsimp only
      have hnc : ¬ (([] : List String).contains fc.cropType = true) := by simp
      left
      rw [if_neg hnc]
    | some zd =>
      dsimp only
      by_cases hcont : zd.optimal_crops.contains fc.cropType = true
      · right; rw [if_pos hcont]
      · left; rw [if_neg hcont]
  · constructor
    · intro h
      unfold calculate_climate_factor at h
      dsimp only at h
      cases hz : dictGet climate_zones fc.climateZone with
      | none =>
        rw [hz] at h
        dsimp only at h
        have hnc : ¬ (([] : List String).contains fc.cropType = true) := by simp
        rw [if_neg hnc] at h
        exact absurd h (by norm_num)
      | some zd =>
        rw [hz] at h
        dsimp only at h
        by_cases hcont : zd.optimal_crops.contains fc.cropType = true
        · exact ⟨zd, rfl, hcont⟩
        · rw [if_neg hcont] at h
          exact absurd h (by norm_num)
    · rintro ⟨zd, hz, hcont⟩
      unfold calculate_climate_factor
      dsimp only
      rw [hz]
      dsimp only
      rw [if_pos hcont]

/-- C5 witness: the bounds, exclusivity and category shape at the
no-data aggregate with an empty config. -/
theorem disease_risk_clamped_bounds_witness :
    (assess_disease_risk .noData {}).overall_risk_level ≤ 100 ∧
    ¬("Heat stress risk for crops" ∈
        (assess_disease_risk .noData {}).risk_factors ∧
      "Cold stress risk for tropical crops" ∈
        (assess_disease_risk .noData {}).risk_factors) ∧
    100 < disease_rule_weights.sum :=
  ⟨(disease_risk_clamped_bounds .noData {}).1,
   (disease_risk_clamped_bounds .noData {}).2.2.1,
   (disease_risk_clamped_bounds .noData {}).2.2.2.2⟩

/-- C7 witness: the no-data status and the 0-vs-30 default gap at the
empty config. -/
theorem empty_sensor_data_defaults_witness :
    analyze_sensor_data [] = .noData ∧
    (assess_disease_risk .noData {}).overall_risk_level = 0 ∧
    (assess_disease_risk (.stats 0 0 0 (0, 0) 0 0) {}).overall_risk_level = 30 :=
  ⟨(empty_sensor_data_defaults {}).1,
   (empty_sensor_data_defaults {}).2.2.2.1,
   (empty_sensor_data_defaults {}).2.2.2.2⟩

/-- C10 witness: the two-valued factor at the empty config and the
lowercase-crop miss. -/
theorem climate_factor_exact_case_witness :
    (calculate_climate_factor {} = 9/10 ∨ calculate_climate_factor {} = 11/10) ∧
    calculate_climate_factor { climateZone := "Wet Zone", cropType := "rice" } =
      9/10 :=
  ⟨(climate_factor_exact_case {}).1, (climate_factor_exact_case {}).2.2.1⟩
